import Mathlib

/-!
Shallow embedding of the Otodata propane-tank-monitor BLE decoder
(`custom_components/ble_monitor/ble_parser/otodata.py`) and of the manual
GATT enrichment utility
(`custom_components/ble_monitor/ble_parser/otodata_gatt_reader.py`),
together with theorems settling the specification claims about them.

Bytes are modelled as `List Nat`; Python byte values are `< 256` but the
definitions below never depend on that bound except where noted.  The
process-wide mutable module state (`_device_cache`, `_gatt_cache`,
`_gatt_read_attempted`) is modelled by an explicit `OtodataState` threaded
through the parse function; exceptions are modelled by `Except PyErr`.
-/

namespace Otodata

abbrev Bytes := List Nat

/-- Python slice `data[a:b]` (lenient on out-of-range bounds). -/
def pySlice (data : Bytes) (a b : Nat) : Bytes :=
  (data.drop a).take (b - a)

/-- Python `bytes.decode('ascii', errors='ignore')`: bytes `< 128` become the
corresponding character, all other bytes are dropped. -/
def asciiDecodeIgnore (bs : Bytes) : String :=
  String.mk (bs.filterMap (fun b => if b < 128 then some (Char.ofNat b) else none))

/-- The ASCII characters for which Python `str.isspace()` is true
(`\t \n \v \f \r`, the separators `0x1c`-`0x1f`, and space). -/
def pyIsSpace (c : Char) : Bool :=
  c.toNat = 9 || c.toNat = 10 || c.toNat = 11 || c.toNat = 12 || c.toNat = 13 ||
  c.toNat = 28 || c.toNat = 29 || c.toNat = 30 || c.toNat = 31 || c.toNat = 32

/-- Python `str.strip()`: remove leading and trailing whitespace. -/
def pyStrip (s : String) : String :=
  String.mk (((s.data.dropWhile pyIsSpace).reverse.dropWhile pyIsSpace).reverse)

/-- Python `str.startswith(pre)`. -/
def pyStartsWith (s pre : String) : Bool :=
  pre.data.isPrefixOf s.data

/-- Python `mac_address.replace(":", "").upper()`: drop every colon, then
uppercase.  Used to normalize device addresses in `_trigger_gatt_read`
(otodata.py line 77) and `read_otodata_info` (otodata_gatt_reader.py
line 43). -/
def pyNormalizeMac (s : String) : String :=
  String.mk ((s.data.filter (fun c => !(c == ':'))).map Char.toUpper)

/-- `packet_type = data[4:11].decode('ascii', errors='ignore').strip()`
(otodata.py line 133).  The surrounding `try` is dead: decoding with
`errors='ignore'` and `strip` never raise, so the `except` branch setting
`packet_type = "UNKNOWN"` is unreachable and not modelled. -/
def packetType (data : Bytes) : String :=
  pyStrip (asciiDecodeIgnore (pySlice data 4 11))

/-- The closed set of packet kinds distinguished by the `if`/`elif` chain of
`parse_otodata` (lines 156, 212, 223, 258). -/
inductive PacketKind where
  | telemetry
  | status
  | info
  | unrecognized
deriving DecidableEq

/-- The branch of `parse_otodata` selected for a frame:
`packet_type == "OTOTELE"`, `packet_type == "OTOSTAT"`,
`packet_type.startswith("OTO3") or packet_type.startswith("OTO32")`, else. -/
def classify (data : Bytes) : PacketKind :=
  let packet_type := packetType data
  if packet_type = "OTOTELE" then .telemetry
  else if packet_type = "OTOSTAT" then .status
  else if pyStartsWith packet_type "OTO3" || pyStartsWith packet_type "OTO32" then .info
  else .unrecognized

/-- Uppercase hexadecimal digit. -/
def hexDigit (n : Nat) : Char :=
  if n < 10 then Char.ofNat (48 + n) else Char.ofNat (55 + n)

/-- Two uppercase hex digits of one byte. -/
def byteHex (b : Nat) : List Char :=
  [hexDigit (b / 16 % 16), hexDigit (b % 16)]

/-- Modelled from the spec: `to_unformatted_mac` lives in `helpers.py`, which
is not part of the sources; the spec describes the cache key as the
"normalized device address (uppercase, separator-free hex)". -/
def to_unformatted_mac (mac : Bytes) : String :=
  String.mk (mac.map byteHex).flatten

/-- Modelled from the spec: `to_mac` lives in `helpers.py`, which is not part
of the sources; it renders the address as colon-separated hex pairs. -/
def to_mac (mac : Bytes) : String :=
  String.intercalate ":" (mac.map (fun b => String.mk (byteHex b)))

/-- The normalization `mac_address.replace(":", "").upper()` applied by
`_trigger_gatt_read` (line 77) to the formatted address it receives. -/
def gattKey (mac : Bytes) : String :=
  pyNormalizeMac (to_mac mac)

/-- One entry of the GATT device-info cache (`_gatt_cache` /
`otodata_device_cache.json`): the mandatory `mac` key plus the optional
characteristic values; a field is `none` when its key is absent. -/
structure GattInfo where
  mac : String
  manufacturer : Option String := none
  model : Option String := none
  serial_number : Option String := none
  hardware_revision : Option String := none
  firmware_revision : Option String := none
  software_revision : Option String := none
deriving DecidableEq

/-- One entry of `_device_cache`: the `{"product": ..., "model": ...}` dict
written by the OTO3xxx branch (lines 243-246). -/
structure DeviceAttrs where
  product : String
  model : String
deriving DecidableEq

/-- The process-wide module state of otodata.py: `_device_cache`,
`_gatt_cache` (as loaded from the JSON file and updated in memory) and
`_gatt_read_attempted`.  Python dicts are modelled as association lists where
assignment prepends and lookup takes the first match. -/
structure OtodataState where
  device_cache : List (String × DeviceAttrs)
  gatt_cache : List (String × GattInfo)
  gatt_read_attempted : List String
deriving DecidableEq

/-- Dict lookup: first entry with the given key. -/
def lookupStr {α : Type} (m : List (String × α)) (k : String) : Option α :=
  match m.find? (fun p => p.1 == k) with
  | some p => some p.2
  | none => none

/-- Dict assignment `m[k] = v`, observationally: later assignments shadow
earlier ones under `lookupStr`. -/
def insertStr {α : Type} (m : List (String × α)) (k : String) (v : α) :
    List (String × α) :=
  (k, v) :: m

/-- The Python exceptions that can arise inside `parse_otodata`'s main `try`
block; `otherError` stands for every exception type that its
`except (IndexError, struct.error)` clause would not catch. -/
inductive PyErr where
  | indexError
  | structError
  | otherError
deriving DecidableEq

/-- `data[i]` on bytes: raises `IndexError` out of range. -/
def getByte (data : Bytes) (i : Nat) : Except PyErr Nat :=
  if h : i < data.length then .ok data[i] else .error .indexError

/-- `struct.unpack("<H", bs)[0]`: requires exactly two bytes, little-endian. -/
def unpackLE16 (bs : Bytes) : Except PyErr Nat :=
  match bs with
  | [a, b] => .ok (a + 256 * b)
  | _ => .error .structError

/-- `_trigger_gatt_read` (lines 75-94): returns the updated state and whether
a background `_read_gatt_info` task was scheduled.  A scheduling failure in
the final `try` is caught and does not undo the `add`; the returned flag
records that scheduling was invoked. -/
def triggerGattRead (st : OtodataState) (mac_address : String) :
    OtodataState × Bool :=
  let mac_str := pyNormalizeMac mac_address
  if st.gatt_read_attempted.contains mac_str ||
      (lookupStr st.gatt_cache mac_str).isSome then
    (st, false)
  else
    ({ st with gatt_read_attempted := mac_str :: st.gatt_read_attempted }, true)

/-- The result dict returned for an OTOTELE frame, with one field per key the
code can put into it: the initial `{"firmware": "Otodata"}`, the telemetry
update (lines 182-185), the optional `_device_cache` and `_gatt_cache` fields
(lines 191-206), and the final update (lines 266-271). -/
structure TelemetryRecord where
  firmware : String
  tank_level : Int
  battery : Int
  product : Option String := none
  model : Option String := none
  serial_number : Option String := none
  hardware_revision : Option String := none
  firmware_revision : Option String := none
  mac : String
  type : String
  packet : String
  data : Bool
deriving DecidableEq

/-- The body of `parse_otodata`'s main `try` block (lines 145-260), for a
frame that already passed the minimum-length check.  The branch is selected
by `classify`; the returned `Bool` records whether `_trigger_gatt_read`
scheduled a background GATT read during this call. -/
def parse_body (st : OtodataState) (data mac : Bytes) (device_type : String) :
    Except PyErr (Option TelemetryRecord × Bool × OtodataState) :=
  match classify data with
  | .telemetry =>
    -- OTOTELE branch (lines 156-210)
    if data.length < 15 then .ok (none, false, st)
    else
      match getByte data 14 with
      | .error e => .error e
      | .ok empty_percent =>
        match getByte data 13 with
        | .error e => .error e
        | .ok battery_depleted =>
          let tank_level : Int := 100 - (empty_percent : Int)
          let battery_level : Int := 100 - (battery_depleted : Int)
          let mac_str := to_unformatted_mac mac
          let cached := lookupStr st.device_cache mac_str
          let gatt := lookupStr st.gatt_cache mac_str
          let r : TelemetryRecord :=
            { firmware := "Otodata"
              tank_level := tank_level
              battery := battery_level
              product := cached.map (fun a => a.product)
              model := cached.map (fun a => a.model)
              serial_number := gatt.bind (fun g => g.serial_number)
              hardware_revision := gatt.bind (fun g => g.hardware_revision)
              firmware_revision := gatt.bind (fun g => g.firmware_revision)
              mac := mac_str
              type := device_type
              packet := "no packet id"
              data := true }
          .ok (some r, false, st)
  | .status =>
    -- OTOSTAT branch (lines 212-221): unknown format, always skipped
    .ok (none, false, st)
  | .info =>
    -- OTO3xxx branch (lines 223-256)
    if data.length < 22 then .ok (none, false, st)
    else
      match unpackLE16 (pySlice data 20 22) with
      | .error e => .error e
      | .ok model_number =>
        -- the `else` arm computing `product_name` from the tag is dead code:
        -- `msg_length >= 22` always holds after the guard above
        let product_name := "MT4AD-TM" ++ toString model_number
        let mac_str := to_unformatted_mac mac
        let attrs : DeviceAttrs := ⟨"Otodata " ++ product_name, product_name⟩
        let st1 : OtodataState :=
          { st with device_cache := insertStr st.device_cache mac_str attrs }
        let tr := triggerGattRead st1 (to_mac mac)
        .ok (none, tr.2, tr.1)
  | .unrecognized =>
    -- unknown packet type (lines 258-260)
    .ok (none, false, st)

/-- `parse_otodata` (lines 97-274).  The `report_unknown` flag only controls
logging and is not modelled.  Returns the record (or `None`), the
schedule flag, and the module state after the call; a raised exception that
the `except (IndexError, struct.error)` clause does not catch propagates. -/
def parse_otodata (st : OtodataState) (data mac : Bytes) :
    Except PyErr (Option TelemetryRecord × Bool × OtodataState) :=
  if data.length < 18 then .ok (none, false, st)
  else
    match parse_body st data mac "Propane Tank Monitor" with
    | .ok v => .ok v
    | .error .indexError => .ok (none, false, st)
    | .error .structError => .ok (none, false, st)
    | .error .otherError => .error .otherError

/-- Total view of `parse_otodata`; the error fallback is dead
(`parse_never_raises` below). -/
def parseStep (st : OtodataState) (data mac : Bytes) :
    Option TelemetryRecord × Bool × OtodataState :=
  match parse_otodata st data mac with
  | .ok v => v
  | .error _ => (none, false, st)

/-- The macs (in `_trigger_gatt_read`'s normalized form) for which a GATT
read is scheduled while processing the given `(data, mac)` frames in order. -/
def scheduledKeys : OtodataState → List (Bytes × Bytes) → List String
  | _, [] => []
  | st, (d, m) :: rest =>
    let out := parseStep st d m
    (if out.2.1 then [gattKey m] else []) ++ scheduledKeys out.2.2 rest

end Otodata

namespace OtodataGattReader

open Otodata (GattInfo lookupStr insertStr)

/-- The outcome of the six `read_gatt_char` attempts of `read_otodata_info`
(otodata_gatt_reader.py lines 47-63): `none` models a read whose
`try`/`except` caught an exception, `some s` a successful decoded read. -/
structure CharReads where
  manufacturer : Option String := none
  model : Option String := none
  serial_number : Option String := none
  hardware_revision : Option String := none
  firmware_revision : Option String := none
  software_revision : Option String := none
deriving DecidableEq

/-- `read_otodata_info` (lines 34-65) after a successful connection: the
`device_info` dict it returns.  Each characteristic is read inside its own
`try`, so one failed read leaves the others untouched. -/
def read_otodata_info (mac_address : String) (reads : CharReads) : GattInfo :=
  { mac := Otodata.pyNormalizeMac mac_address
    manufacturer := reads.manufacturer
    model := reads.model
    serial_number := reads.serial_number
    hardware_revision := reads.hardware_revision
    firmware_revision := reads.firmware_revision
    software_revision := reads.software_revision }

/-- `save_to_cache` (lines 68-86): load the existing cache (the `cache`
argument), assign `cache[mac] = device_info`, write it back. -/
def save_to_cache (cache : List (String × GattInfo)) (device_info : GattInfo) :
    List (String × GattInfo) :=
  insertStr cache device_info.mac device_info

/-- `main` (lines 89-104) after argument validation, with the connection and
the cache write modelled by success flags: returns the process exit status
and the resulting cache file contents.  A failure anywhere inside the `try`
(connection or write) is caught and exits with status 1. -/
def gattReaderMain (connect_ok write_ok : Bool) (mac_address : String)
    (reads : CharReads) (cache : List (String × GattInfo)) :
    Nat × List (String × GattInfo) :=
  if connect_ok then
    let device_info := read_otodata_info mac_address reads
    if write_ok then (0, save_to_cache cache device_info)
    else (1, cache)
  else (1, cache)

end OtodataGattReader

namespace Otodata

/-- `len(device_info) - 1` for an auto-path `device_info` dict: the number of
optional fields present besides the mandatory `mac` key. -/
def gattInfoFieldCount (g : GattInfo) : Nat :=
  (if g.manufacturer.isSome then 1 else 0) +
  (if g.model.isSome then 1 else 0) +
  (if g.serial_number.isSome then 1 else 0) +
  (if g.hardware_revision.isSome then 1 else 0) +
  (if g.firmware_revision.isSome then 1 else 0) +
  (if g.software_revision.isSome then 1 else 0)

/-- The cache commit of `_read_gatt_info` (otodata.py lines 59-65): the entry
is written only when the dict holds more than the `mac` key, and the write is
`_gatt_cache[mac] = device_info`. -/
def read_gatt_info_commit (gcache : List (String × GattInfo)) (g : GattInfo) :
    List (String × GattInfo) :=
  if 0 < gattInfoFieldCount g then insertStr gcache g.mac g else gcache

/-! ### Derived normal forms of the parse branches -/

/-- The record the OTOTELE branch assembles, written with total lookups
(equal to the branch result whenever the frame is long enough,
`telemetry_run` below). -/
def teleRecord (st : OtodataState) (data mac : Bytes) : TelemetryRecord :=
  { firmware := "Otodata"
    tank_level := 100 - (data.getD 14 0 : Int)
    battery := 100 - (data.getD 13 0 : Int)
    product := (lookupStr st.device_cache (to_unformatted_mac mac)).map (fun a => a.product)
    model := (lookupStr st.device_cache (to_unformatted_mac mac)).map (fun a => a.model)
    serial_number := (lookupStr st.gatt_cache (to_unformatted_mac mac)).bind (fun g => g.serial_number)
    hardware_revision := (lookupStr st.gatt_cache (to_unformatted_mac mac)).bind (fun g => g.hardware_revision)
    firmware_revision := (lookupStr st.gatt_cache (to_unformatted_mac mac)).bind (fun g => g.firmware_revision)
    mac := to_unformatted_mac mac
    type := "Propane Tank Monitor"
    packet := "no packet id"
    data := true }

/-- The `{"product": ..., "model": ...}` entry the OTO3xxx branch caches,
written with total lookups. -/
def infoAttrs (data : Bytes) : DeviceAttrs :=
  let product_name := "MT4AD-TM" ++ toString (data.getD 20 0 + 256 * data.getD 21 0)
  ⟨"Otodata " ++ product_name, product_name⟩

/-- The state after the OTO3xxx branch writes `_device_cache`, before the
GATT-read trigger. -/
def infoState (st : OtodataState) (data mac : Bytes) : OtodataState :=
  { st with device_cache :=
      insertStr st.device_cache (to_unformatted_mac mac) (infoAttrs data) }

/-- An address already marked attempted or already in the loaded GATT cache. -/
def blockedAddr (st : OtodataState) (A : String) : Prop :=
  A ∈ st.gatt_read_attempted ∨ (lookupStr st.gatt_cache A).isSome = true

/-! ### Concrete inputs used by the witnesses and counterexamples -/

/-- An example device address, `EA:10:90:60:BC:01`. -/
def macW : Bytes := [0xEA, 0x10, 0x90, 0x60, 0xBC, 0x01]

/-- An OTOTELE frame of length 18 with depleted byte 10 and empty byte 28. -/
def teleFrameW : Bytes := [26, 255, 177, 3, 79, 84, 79, 84, 69, 76, 69, 2, 0, 10, 28, 0, 0, 0]

/-- An OTO3281 frame of length 22 whose model-code bytes 20-21 are
`0xB0 0x13`, i.e. 5040 little-endian. -/
def infoFrameW : Bytes := [26, 255, 177, 3, 79, 84, 79, 51, 50, 56, 49, 144, 96, 188, 1, 16, 24, 33, 3, 132, 176, 19]

/-- An OTOSTAT frame of length 18. -/
def statFrameW : Bytes := [26, 255, 177, 3, 79, 84, 79, 83, 84, 65, 84, 0, 0, 0, 0, 0, 0, 0]

/-- The module state at a fresh process start with no persisted GATT cache. -/
def st0 : OtodataState := ⟨[], [], []⟩

/-- A state whose attempted set already holds the example address. -/
def stBlockedW : OtodataState := ⟨[], [], ["EA109060BC01"]⟩

/-- A stored GATT cache entry holding a serial number and revisions. -/
def gattFullW : GattInfo :=
  { mac := "EA109060BC01", serial_number := some "S123",
    hardware_revision := some "H1", firmware_revision := some "F1" }

/-- A later partial read for the same device that only got the manufacturer. -/
def gattPartialW : GattInfo :=
  { mac := "EA109060BC01", manufacturer := some "Otodata" }

/-- A cache file that already holds the full entry for the example device. -/
def cacheW : List (String × GattInfo) := [("EA109060BC01", gattFullW)]

/-- A frame that agrees with `teleFrameW` on bytes 4-10 (the OTOTELE tag) but
differs everywhere else, including in length. -/
def teleFrameW2 : Bytes := [0, 0, 0, 0, 79, 84, 79, 84, 69, 76, 69, 9, 9, 50, 60, 1, 2, 3, 4, 5]

end Otodata

namespace Otodata

/-! ### Basic facts about the byte primitives -/

theorem getByte_ok (data : Bytes) (i : Nat) (h : i < data.length) :
    getByte data i = .ok (data.getD i 0) := by
  simp [getByte, h, List.getD_eq_getElem?_getD, List.getElem?_eq_getElem h]

theorem getByte_error (data : Bytes) (i : Nat) (e : PyErr)
    (h : getByte data i = .error e) : e = .indexError := by
  unfold getByte at h
  split at h <;> simp_all

theorem unpackLE16_error (bs : Bytes) (e : PyErr)
    (h : unpackLE16 bs = .error e) : e = .structError := by
  unfold unpackLE16 at h
  split at h <;> simp_all

theorem pySlice_20_22 (data : Bytes) (h : 22 ≤ data.length) :
    pySlice data 20 22 = [data.getD 20 0, data.getD 21 0] := by
  have h20 : 20 < data.length := by omega
  have h21 : 21 < data.length := by omega
  unfold pySlice
  rw [List.drop_eq_getElem_cons h20, List.drop_eq_getElem_cons h21]
  simp [List.take, List.getD_eq_getElem?_getD, List.getElem?_eq_getElem, h20, h21]

/-! ### Characterizations of the four `parse_otodata` branches -/

theorem telemetry_run (st : OtodataState) (data mac : Bytes)
    (hlen : 18 ≤ data.length) (htag : classify data = .telemetry) :
    parse_otodata st data mac = .ok (some (teleRecord st data mac), false, st) := by
  have h18 : ¬ data.length < 18 := by omega
  have h15 : ¬ data.length < 15 := by omega
  unfold parse_otodata parse_body
  rw [if_neg h18, htag]
  rw [if_neg h15, getByte_ok data 14 (by omega), getByte_ok data 13 (by omega)]
  rfl

theorem status_run (st : OtodataState) (data mac : Bytes)
    (htag : classify data = .status) :
    parse_otodata st data mac = .ok (none, false, st) := by
  unfold parse_otodata parse_body
  by_cases h18 : data.length < 18
  · rw [if_pos h18]
  · rw [if_neg h18, htag]

theorem unrecognized_run (st : OtodataState) (data mac : Bytes)
    (htag : classify data = .unrecognized) :
    parse_otodata st data mac = .ok (none, false, st) := by
  unfold parse_otodata parse_body
  by_cases h18 : data.length < 18
  · rw [if_pos h18]
  · rw [if_neg h18, htag]

theorem info_short_run (st : OtodataState) (data mac : Bytes)
    (hlen : data.length < 22) (htag : classify data = .info) :
    parse_otodata st data mac = .ok (none, false, st) := by
  unfold parse_otodata parse_body
  by_cases h18 : data.length < 18
  · rw [if_pos h18]
  · rw [if_neg h18, htag, if_pos hlen]

theorem info_run (st : OtodataState) (data mac : Bytes)
    (hlen : 22 ≤ data.length) (htag : classify data = .info) :
    parse_otodata st data mac =
      .ok (none, (triggerGattRead (infoState st data mac) (to_mac mac)).2,
           (triggerGattRead (infoState st data mac) (to_mac mac)).1) := by
  have h18 : ¬ data.length < 18 := by omega
  have h22 : ¬ data.length < 22 := by omega
  unfold parse_otodata parse_body
  rw [if_neg h18, htag, if_neg h22, pySlice_20_22 data hlen]
  rfl

theorem short_run (st : OtodataState) (data mac : Bytes) (h : data.length < 18) :
    parse_otodata st data mac = .ok (none, false, st) := by
  unfold parse_otodata
  rw [if_pos h]

/-! ### Totality of the decode entry point -/

theorem parse_body_ne_other (st : OtodataState) (d m : Bytes) (dt : String) :
    parse_body st d m dt ≠ .error .otherError := by
  unfold parse_body
  split
  · split
    · simp
    · cases h14 : getByte d 14 with
      | error e => simp [getByte_error d 14 e h14]
      | ok v =>
        cases h13 : getByte d 13 with
        | error e => simp [getByte_error d 13 e h13]
        | ok w => simp
  · simp
  · split
    · simp
    · cases hu : unpackLE16 (pySlice d 20 22) with
      | error e => simp [unpackLE16_error _ e hu]
      | ok v => simp
  · simp

theorem parse_total (st : OtodataState) (d m : Bytes) :
    ∃ v, parse_otodata st d m = .ok v := by
  unfold parse_otodata
  split
  · exact ⟨_, rfl⟩
  · cases hb : parse_body st d m "Propane Tank Monitor" with
    | ok v => exact ⟨v, rfl⟩
    | error e =>
      cases e with
      | indexError => exact ⟨_, rfl⟩
      | structError => exact ⟨_, rfl⟩
      | otherError => exact absurd hb (parse_body_ne_other st d m _)

/-! ### State effects of one parse call -/

theorem triggerGattRead_blocked (st : OtodataState) (a : String)
    (h : (st.gatt_read_attempted.contains (pyNormalizeMac a) ||
          (lookupStr st.gatt_cache (pyNormalizeMac a)).isSome) = true) :
    triggerGattRead st a = (st, false) := by
  simp only [triggerGattRead]
  rw [if_pos h]

theorem triggerGattRead_fresh (st : OtodataState) (a : String)
    (h : ¬ (st.gatt_read_attempted.contains (pyNormalizeMac a) ||
            (lookupStr st.gatt_cache (pyNormalizeMac a)).isSome) = true) :
    triggerGattRead st a =
      ({ st with gatt_read_attempted := pyNormalizeMac a :: st.gatt_read_attempted },
       true) := by
  simp only [triggerGattRead]
  rw [if_neg h]

/-- What one `parseStep` does to the GATT caches: `_gatt_cache` is never
modified; a scheduled read means the key was fresh and is now marked
attempted; no schedule leaves `_gatt_read_attempted` unchanged. -/
theorem parseStep_effects (st : OtodataState) (d m : Bytes) :
    (parseStep st d m).2.2.gatt_cache = st.gatt_cache ∧
    ((parseStep st d m).2.1 = true →
      gattKey m ∉ st.gatt_read_attempted ∧
      (lookupStr st.gatt_cache (gattKey m)).isSome = false ∧
      (parseStep st d m).2.2.gatt_read_attempted = gattKey m :: st.gatt_read_attempted) ∧
    ((parseStep st d m).2.1 = false →
      (parseStep st d m).2.2.gatt_read_attempted = st.gatt_read_attempted) := by
  by_cases h18 : d.length < 18
  · simp [parseStep, short_run st d m h18]
  · cases hc : classify d with
    | telemetry =>
      simp [parseStep, telemetry_run st d m (by omega) hc]
    | status =>
      simp [parseStep, status_run st d m hc]
    | unrecognized =>
      simp [parseStep, unrecognized_run st d m hc]
    | info =>
      by_cases h22 : d.length < 22
      · simp [parseStep, info_short_run st d m h22 hc]
      · have hrun := info_run st d m (by omega) hc
        simp only [parseStep, hrun]
        by_cases hcond : (st.gatt_read_attempted.contains (pyNormalizeMac (to_mac m)) ||
            (lookupStr st.gatt_cache (pyNormalizeMac (to_mac m))).isSome) = true
        · rw [triggerGattRead_blocked (infoState st d m) (to_mac m) hcond]
          exact ⟨rfl, fun h => Bool.noConfusion h, fun _ => rfl⟩
        · rw [triggerGattRead_fresh (infoState st d m) (to_mac m) hcond]
          refine ⟨rfl, fun _ => ⟨?_, ?_, rfl⟩, fun h => Bool.noConfusion h⟩
          · intro hmem
            apply hcond
            rw [Bool.or_eq_true]
            left
            simpa [List.contains, List.elem_eq_mem, gattKey] using hmem
          · cases hy : (lookupStr st.gatt_cache (gattKey m)).isSome with
            | false => rfl
            | true =>
              exfalso
              apply hcond
              rw [Bool.or_eq_true]
              right
              exact hy

/-! ### Dict lookup lemmas -/

theorem lookupStr_insert_self {α : Type} (m : List (String × α)) (k : String) (v : α) :
    lookupStr (insertStr m k v) k = some v := by
  simp [lookupStr, insertStr, List.find?_cons_of_pos]

theorem lookupStr_insert_other {α : Type} (m : List (String × α)) (k q : String) (v : α)
    (h : ¬ q = k) : lookupStr (insertStr m k v) q = lookupStr m q := by
  have hk : ¬ ((k, v).1 == q) = true := by
    simp only [beq_iff_eq]
    exact fun e => h e.symm
  unfold lookupStr insertStr
  rw [List.find?_cons_of_neg (p := fun x => x.1 == q) (a := (k, v)) m hk]

theorem triggerGattRead_device_cache (st : OtodataState) (a : String) :
    (triggerGattRead st a).1.device_cache = st.device_cache := by
  by_cases h : (st.gatt_read_attempted.contains (pyNormalizeMac a) ||
      (lookupStr st.gatt_cache (pyNormalizeMac a)).isSome) = true
  · rw [triggerGattRead_blocked st a h]
  · rw [triggerGattRead_fresh st a h]

/-! ### At-most-once GATT scheduling -/

theorem blockedAddr_step (st : OtodataState) (d m : Bytes) (A : String)
    (h : blockedAddr st A) :
    blockedAddr (parseStep st d m).2.2 A ∧
    ((parseStep st d m).2.1 = true → ¬ gattKey m = A) := by
  obtain ⟨hgc, hpos, hneg⟩ := parseStep_effects st d m
  constructor
  · cases hb : (parseStep st d m).2.1 with
    | true =>
      obtain ⟨_, _, hatt⟩ := hpos hb
      cases h with
      | inl hmem => exact Or.inl (by rw [hatt]; exact List.mem_cons_of_mem _ hmem)
      | inr hs => exact Or.inr (by rw [hgc]; exact hs)
    | false =>
      cases h with
      | inl hmem => exact Or.inl (by rw [hneg hb]; exact hmem)
      | inr hs => exact Or.inr (by rw [hgc]; exact hs)
  · intro hb heq
    obtain ⟨hnm, hns, _⟩ := hpos hb
    cases h with
    | inl hmem =>
      apply hnm
      rw [heq]
      exact hmem
    | inr hs =>
      rw [heq] at hns
      rw [hns] at hs
      exact Bool.noConfusion hs

theorem scheduledKeys_count_zero (A : String) (fs : List (Bytes × Bytes)) :
    ∀ st : OtodataState, blockedAddr st A → (scheduledKeys st fs).count A = 0 := by
  induction fs with
  | nil => intro st _; rfl
  | cons fm rest ih =>
    intro st h
    obtain ⟨d, m⟩ := fm
    have hstep := blockedAddr_step st d m A h
    simp only [scheduledKeys, List.count_append]
    rw [ih _ hstep.1]
    cases hb : (parseStep st d m).2.1 with
    | false => simp
    | true =>
      have hne := hstep.2 hb
      simp [List.count_cons, hne]

theorem scheduledKeys_count_le_one (A : String) (fs : List (Bytes × Bytes)) :
    ∀ st : OtodataState, (scheduledKeys st fs).count A ≤ 1 := by
  induction fs with
  | nil => intro st; simp [scheduledKeys]
  | cons fm rest ih =>
    intro st
    obtain ⟨d, m⟩ := fm
    simp only [scheduledKeys, List.count_append]
    cases hb : (parseStep st d m).2.1 with
    | false =>
      simpa using ih (parseStep st d m).2.2
    | true =>
      by_cases hA : gattKey m = A
      · have hblocked : blockedAddr (parseStep st d m).2.2 A := by
          obtain ⟨-, hpos, -⟩ := parseStep_effects st d m
          obtain ⟨-, -, hatt⟩ := hpos hb
          left
          rw [hatt, hA]
          exact List.mem_cons_self _ _
        rw [scheduledKeys_count_zero A rest _ hblocked]
        simp [List.count_cons, hA]
      · simp [List.count_cons, hA]
        exact ih (parseStep st d m).2.2

end Otodata

namespace Otodata

/-! ### The specification claims -/

/-- Claim C1: for every frame classified as Telemetry (tag `"OTOTELE"`) that
passes length validation, the decoder computes
`tankLevelPercent = 100 - data[14]` and `batteryLevelPercent = 100 - data[13]`
with no range clamping; an empty byte of 28 yields tank level 72 and a
depleted byte of 10 yields battery level 90. -/
theorem telemetry_levels_no_clamping (st : OtodataState) (data mac : Bytes)
    (hlen : 18 ≤ data.length) (htag : classify data = .telemetry) :
    ∃ r b st1, parse_otodata st data mac = .ok (some r, b, st1) ∧
      r.tank_level = 100 - (data.getD 14 0 : Int) ∧
      r.battery = 100 - (data.getD 13 0 : Int) ∧
      (data.getD 14 0 = 28 → r.tank_level = 72) ∧
      (data.getD 13 0 = 10 → r.battery = 90) := by
  refine ⟨teleRecord st data mac, false, st, telemetry_run st data mac hlen htag,
    rfl, rfl, ?_, ?_⟩
  · intro h
    show (100 : Int) - (data.getD 14 0 : Int) = 72
    rw [h]
    decide
  · intro h
    show (100 : Int) - (data.getD 13 0 : Int) = 90
    rw [h]
    decide

theorem telemetry_levels_no_clamping_witness :
    18 ≤ teleFrameW.length ∧ classify teleFrameW = .telemetry ∧
    teleFrameW.getD 14 0 = 28 ∧ teleFrameW.getD 13 0 = 10 ∧
    ∃ r b st1, parse_otodata st0 teleFrameW macW = .ok (some r, b, st1) ∧
      r.tank_level = 100 - (teleFrameW.getD 14 0 : Int) ∧
      r.battery = 100 - (teleFrameW.getD 13 0 : Int) ∧
      (teleFrameW.getD 14 0 = 28 → r.tank_level = 72) ∧
      (teleFrameW.getD 13 0 = 10 → r.battery = 90) :=
  ⟨by decide, by decide, by decide, by decide,
   telemetry_levels_no_clamping st0 teleFrameW macW (by decide) (by decide)⟩

/-- Claim C2, counterexample: on a concrete Info frame whose little-endian
model code at offsets 20-21 is 5040, the cached product string is
`"Otodata MT4AD-TM5040"`, not `"MT4AD-TM5040"` as claimed. -/
theorem info_cached_product_not_bare_model :
    22 ≤ infoFrameW.length ∧ classify infoFrameW = .info ∧
    infoFrameW.getD 20 0 + 256 * infoFrameW.getD 21 0 = 5040 ∧
    (parseStep st0 infoFrameW macW).1 = none ∧
    (lookupStr (parseStep st0 infoFrameW macW).2.2.device_cache
        (to_unformatted_mac macW)).map (fun a => a.product) =
      some "Otodata MT4AD-TM5040" ∧
    ¬ (lookupStr (parseStep st0 infoFrameW macW).2.2.device_cache
        (to_unformatted_mac macW)).map (fun a => a.product) =
      some "MT4AD-TM5040" := by
  decide

/-- Claim C2 as amended: an Info frame of length at least 22 with model code
5040 caches, under the frame's normalized address, the product string
`"Otodata MT4AD-TM5040"` (the decoded model string `"MT4AD-TM5040"` prefixed
by the vendor name) and the model string `"MT4AD-TM5040"`, and decode
returns no telemetry record. -/
theorem info_caches_full_product (st : OtodataState) (data mac : Bytes)
    (hlen : 22 ≤ data.length) (htag : classify data = .info)
    (hmodel : data.getD 20 0 + 256 * data.getD 21 0 = 5040) :
    ∃ b st1, parse_otodata st data mac = .ok (none, b, st1) ∧
      lookupStr st1.device_cache (to_unformatted_mac mac) =
        some ⟨"Otodata MT4AD-TM5040", "MT4AD-TM5040"⟩ := by
  have hattrs : infoAttrs data = ⟨"Otodata MT4AD-TM5040", "MT4AD-TM5040"⟩ := by
    simp only [infoAttrs, hmodel]
    decide
  refine ⟨_, _, info_run st data mac hlen htag, ?_⟩
  rw [triggerGattRead_device_cache]
  show lookupStr (insertStr st.device_cache (to_unformatted_mac mac) (infoAttrs data))
      (to_unformatted_mac mac) = _
  rw [lookupStr_insert_self, hattrs]

theorem info_caches_full_product_witness :
    22 ≤ infoFrameW.length ∧ classify infoFrameW = .info ∧
    infoFrameW.getD 20 0 + 256 * infoFrameW.getD 21 0 = 5040 ∧
    ∃ b st1, parse_otodata st0 infoFrameW macW = .ok (none, b, st1) ∧
      lookupStr st1.device_cache (to_unformatted_mac macW) =
        some ⟨"Otodata MT4AD-TM5040", "MT4AD-TM5040"⟩ :=
  ⟨by decide, by decide, by decide,
   info_caches_full_product st0 infoFrameW macW (by decide) (by decide) (by decide)⟩

/-- Claim C3: every frame shorter than 18 bytes is rejected: decode returns
no record, schedules nothing, and leaves the module state untouched. -/
theorem short_frame_rejected (st : OtodataState) (data mac : Bytes)
    (h : data.length < 18) :
    parse_otodata st data mac = .ok (none, false, st) :=
  short_run st data mac h

theorem short_frame_rejected_witness :
    ([] : Bytes).length < 18 ∧
    parse_otodata st0 [] macW = .ok (none, false, st0) :=
  ⟨by decide, short_frame_rejected st0 [] macW (by decide)⟩

/-- Claim C4: after an Info frame for an address is processed, a subsequent
valid Telemetry frame for the same address returns a record whose `product`
and `model` equal exactly the cached values. -/
theorem info_attrs_flow_to_telemetry (st : OtodataState) (d1 d2 mac : Bytes)
    (hl1 : 22 ≤ d1.length) (h1 : classify d1 = .info)
    (hl2 : 18 ≤ d2.length) (h2 : classify d2 = .telemetry) :
    ∃ b1 st1 attrs r b2 st2,
      parse_otodata st d1 mac = .ok (none, b1, st1) ∧
      lookupStr st1.device_cache (to_unformatted_mac mac) = some attrs ∧
      parse_otodata st1 d2 mac = .ok (some r, b2, st2) ∧
      r.product = some attrs.product ∧ r.model = some attrs.model := by
  have hlk : lookupStr (triggerGattRead (infoState st d1 mac) (to_mac mac)).1.device_cache
      (to_unformatted_mac mac) = some (infoAttrs d1) := by
    rw [triggerGattRead_device_cache]
    exact lookupStr_insert_self st.device_cache (to_unformatted_mac mac) (infoAttrs d1)
  refine ⟨_, _, infoAttrs d1,
    teleRecord (triggerGattRead (infoState st d1 mac) (to_mac mac)).1 d2 mac, false, _,
    info_run st d1 mac hl1 h1, hlk,
    telemetry_run _ d2 mac hl2 h2, ?_, ?_⟩
  · simp [teleRecord, hlk]
  · simp [teleRecord, hlk]

theorem info_attrs_flow_to_telemetry_witness :
    22 ≤ infoFrameW.length ∧ classify infoFrameW = .info ∧
    18 ≤ teleFrameW.length ∧ classify teleFrameW = .telemetry ∧
    ∃ b1 st1 attrs r b2 st2,
      parse_otodata st0 infoFrameW macW = .ok (none, b1, st1) ∧
      lookupStr st1.device_cache (to_unformatted_mac macW) = some attrs ∧
      parse_otodata st1 teleFrameW macW = .ok (some r, b2, st2) ∧
      r.product = some attrs.product ∧ r.model = some attrs.model :=
  ⟨by decide, by decide, by decide, by decide,
   info_attrs_flow_to_telemetry st0 infoFrameW teleFrameW macW
     (by decide) (by decide) (by decide) (by decide)⟩

/-- Claim C5: over any sequence of processed frames, a GATT enrichment fetch
is scheduled at most once per normalized address, and never when the address
is already in the attempted set or in the loaded GATT cache. -/
theorem gatt_fetch_at_most_once (st : OtodataState)
    (fs : List (Bytes × Bytes)) (A : String) :
    (scheduledKeys st fs).count A ≤ 1 ∧
    (A ∈ st.gatt_read_attempted ∨ (lookupStr st.gatt_cache A).isSome = true →
      (scheduledKeys st fs).count A = 0) :=
  ⟨scheduledKeys_count_le_one A fs st, fun h => scheduledKeys_count_zero A fs st h⟩

theorem gatt_fetch_at_most_once_witness :
    "EA109060BC01" ∈ stBlockedW.gatt_read_attempted ∧
    (scheduledKeys stBlockedW [(infoFrameW, macW), (infoFrameW, macW)]).count
      "EA109060BC01" = 0 :=
  ⟨by decide,
   (gatt_fetch_at_most_once stBlockedW [(infoFrameW, macW), (infoFrameW, macW)]
     "EA109060BC01").2 (Or.inl (by decide))⟩

/-- Claim C6: every Status-kind frame (tag `"OTOSTAT"`) yields no record, no
schedule, and no state change, regardless of its remaining content. -/
theorem status_frame_returns_none (st : OtodataState) (data mac : Bytes)
    (htag : classify data = .status) :
    parse_otodata st data mac = .ok (none, false, st) :=
  status_run st data mac htag

theorem status_frame_returns_none_witness :
    classify statFrameW = .status ∧
    parse_otodata st0 statFrameW macW = .ok (none, false, st0) :=
  ⟨by decide, status_frame_returns_none st0 statFrameW macW (by decide)⟩

/-- Claim C7, counterexample: a successful enrichment write for an address
already present in the store replaces the entry wholesale, so a field
previously stored (the serial number) is lost when the new read lacks it. -/
theorem enrichment_write_drops_fields :
    (lookupStr cacheW "EA109060BC01").bind (fun g => g.serial_number) =
      some "S123" ∧
    gattPartialW.mac = "EA109060BC01" ∧
    (lookupStr (OtodataGattReader.save_to_cache cacheW gattPartialW)
        "EA109060BC01").bind (fun g => g.serial_number) = none := by
  decide

/-- Claim C7 as amended: a successful enrichment write (manual utility, or
the background fetch when it read at least one field) preserves the stored
entries of every other address, but replaces the written address's entry
wholesale with exactly the new record: previously stored fields missing from
the new read are dropped, not merged. -/
theorem enrichment_write_replaces_entry (cache : List (String × GattInfo))
    (g : GattInfo) :
    lookupStr (OtodataGattReader.save_to_cache cache g) g.mac = some g ∧
    (∀ k, ¬ k = g.mac →
      lookupStr (OtodataGattReader.save_to_cache cache g) k = lookupStr cache k) ∧
    (0 < gattInfoFieldCount g →
      lookupStr (read_gatt_info_commit cache g) g.mac = some g ∧
      ∀ k, ¬ k = g.mac →
        lookupStr (read_gatt_info_commit cache g) k = lookupStr cache k) := by
  refine ⟨lookupStr_insert_self cache g.mac g,
    fun k hk => lookupStr_insert_other cache g.mac k g hk, fun hcount => ?_⟩
  unfold read_gatt_info_commit
  rw [if_pos hcount]
  exact ⟨lookupStr_insert_self cache g.mac g,
    fun k hk => lookupStr_insert_other cache g.mac k g hk⟩

theorem enrichment_write_replaces_entry_witness :
    ¬ "AABBCCDDEEFF" = gattPartialW.mac ∧
    0 < gattInfoFieldCount gattPartialW ∧
    lookupStr (OtodataGattReader.save_to_cache cacheW gattPartialW)
      gattPartialW.mac = some gattPartialW ∧
    lookupStr (OtodataGattReader.save_to_cache cacheW gattPartialW)
      "AABBCCDDEEFF" = lookupStr cacheW "AABBCCDDEEFF" ∧
    lookupStr (read_gatt_info_commit cacheW gattPartialW) gattPartialW.mac =
      some gattPartialW :=
  ⟨by decide, by decide,
   (enrichment_write_replaces_entry cacheW gattPartialW).1,
   (enrichment_write_replaces_entry cacheW gattPartialW).2.1 "AABBCCDDEEFF" (by decide),
   ((enrichment_write_replaces_entry cacheW gattPartialW).2.2 (by decide)).1⟩

/-- Claim C8: for every input frame, address and module state, the decode
entry point terminates normally with a value (a record or no result); every
internal error is absorbed and no exception propagates to the caller. -/
theorem decode_never_raises (st : OtodataState) (data mac : Bytes) :
    ∃ v, parse_otodata st data mac = .ok v :=
  parse_total st data mac

/-- Claim C9: the manual enrichment utility exits non-zero exactly when the
connection or the cache write fails; the six characteristic reads are
independent, each field of the produced record being exactly its own read's
outcome no matter how the other reads fared. -/
theorem gatt_reader_exit_status (c w : Bool) (a : String)
    (reads : OtodataGattReader.CharReads) (cache : List (String × GattInfo)) :
    ((OtodataGattReader.gattReaderMain c w a reads cache).1 = 0 ↔
      c = true ∧ w = true) ∧
    ((OtodataGattReader.read_otodata_info a reads).manufacturer = reads.manufacturer ∧
     (OtodataGattReader.read_otodata_info a reads).model = reads.model ∧
     (OtodataGattReader.read_otodata_info a reads).serial_number = reads.serial_number ∧
     (OtodataGattReader.read_otodata_info a reads).hardware_revision = reads.hardware_revision ∧
     (OtodataGattReader.read_otodata_info a reads).firmware_revision = reads.firmware_revision ∧
     (OtodataGattReader.read_otodata_info a reads).software_revision = reads.software_revision) := by
  constructor
  · cases c <;> cases w <;> simp [OtodataGattReader.gattReaderMain]
  · exact ⟨rfl, rfl, rfl, rfl, rfl, rfl⟩

/-- Claim C10: for frames of length at least 18, the chosen packet kind is a
function of bytes 4 through 10 alone: two such frames agreeing there are
classified identically. -/
theorem classification_depends_only_on_tag (d1 d2 : Bytes)
    (h1 : 18 ≤ d1.length) (h2 : 18 ≤ d2.length)
    (hagree : ∀ i, 4 ≤ i → i ≤ 10 → d1.getD i 0 = d2.getD i 0) :
    classify d1 = classify d2 := by
  have hslice : pySlice d1 4 11 = pySlice d2 4 11 := by
    apply List.ext_getElem
    · simp only [pySlice, List.length_take, List.length_drop]
      omega
    · intro n hn1 hn2
      simp only [pySlice, List.length_take, List.length_drop] at hn1 hn2
      have hb1 : 4 + n < d1.length := by omega
      have hb2 : 4 + n < d2.length := by omega
      have hval := hagree (4 + n) (by omega) (by omega)
      rw [List.getD_eq_getElem?_getD, List.getD_eq_getElem?_getD,
        List.getElem?_eq_getElem hb1, List.getElem?_eq_getElem hb2] at hval
      simp only [Option.getD_some] at hval
      simp only [pySlice, List.getElem_take, List.getElem_drop]
      exact hval
  unfold classify packetType
  rw [hslice]

theorem classification_depends_only_on_tag_witness :
    18 ≤ teleFrameW.length ∧ 18 ≤ teleFrameW2.length ∧
    classify teleFrameW = classify teleFrameW2 :=
  ⟨by decide, by decide,
   classification_depends_only_on_tag teleFrameW teleFrameW2 (by decide) (by decide)
     (by intro i h4 h10; interval_cases i <;> decide)⟩

end Otodata
